import Mathlib

/-!
Verification of the `icmp-echo` command-line ping tool (`src/main.rs`).

The development shallowly embeds the program: the argument parser
(`parse_arg` and the two `TryFrom<&str>` validators) becomes pure Lean
functions on `String`, and the asynchronous echo session (the
`try_fold` loop in `main`) becomes a pure function from an environment
oracle — describing, per iteration, the result of the discarded
`send_to` call, the successive `rcv_from` results available during the
wait window, and the measured elapsed time — to the list of observable
events (pacing sleeps, sends, reported lines) plus the session's final
`Result`.
-/

/-- The error enum of `main.rs` (payloads of the wrapped foreign error
types are collapsed; `Uncategorized` keeps its message string). -/
inductive Error where
  | AddressParsing
  | Io
  | NumberParsing
  | PacketBuilding
  | Uncategorized (message : String)
deriving DecidableEq

/-- Decimal value of a digit-string with optional leading plus sign, as
shared by Rust's integer `FromStr` parsers: `none` on an empty string,
a stray sign, or any non-digit character; otherwise the (unbounded)
numeric value. -/
def decimalValue (s : String) : Option Nat :=
  let cs : List Char :=
    match s.data with
    | '+' :: rest => rest
    | cs => cs
  if cs = [] then none
  else if cs.all Char.isDigit then
    some (cs.foldl (fun acc c => acc * 10 + (c.toNat - 48)) 0)
  else none

/-- Rust's `u16::from_str`: the decimal value when it exists and fits in
16 bits, `none` (a `ParseIntError`) otherwise. -/
def u16FromStr (s : String) : Option Nat :=
  match decimalValue s with
  | none => none
  | some n => if n ≤ 65535 then some n else none

def tooManyRequestsMessage : String := "only ten or less requests are supported"

def zeroRequestsMessage : String := "at least one ping must be requested"

def intervalTooLargeMessage : String := "only one second or less intervals supported"

def zeroIntervalMessage : String := "zero interval is not supported"

/-- `impl TryFrom<&str> for RequestsToSend` (main.rs lines 20-29): parse
as `u16`, reject values above 10 and the value 0. -/
def RequestsToSend.tryFrom (text : String) : Except Error Nat :=
  match u16FromStr text with
  | none => Except.error Error.NumberParsing
  | some x =>
      if 10 < x then Except.error (Error.Uncategorized tooManyRequestsMessage)
      else if x = 0 then Except.error (Error.Uncategorized zeroRequestsMessage)
      else Except.ok x

/-- `impl TryFrom<&str> for TransmissionInterval` (main.rs lines 34-45):
parse as `u16`, reject values above 1000 and the value 0. -/
def TransmissionInterval.tryFrom (text : String) : Except Error Nat :=
  match u16FromStr text with
  | none => Except.error Error.NumberParsing
  | some x =>
      if 1000 < x then Except.error (Error.Uncategorized intervalTooLargeMessage)
      else if x = 0 then Except.error (Error.Uncategorized zeroIntervalMessage)
      else Except.ok x

/-- Splitting a character list at every occurrence of a separator,
keeping empty pieces, exactly as Rust's `str::split` does on its
character sequence (the empty string yields one empty field). -/
def splitOnChar (sep : Char) : List Char → List (List Char)
  | [] => [[]]
  | c :: rest =>
      if c = sep then [] :: splitOnChar sep rest
      else
        match splitOnChar sep rest with
        | [] => [[c]]
        | f :: fs => (c :: f) :: fs

/-- Rust's `str::split` for a one-character separator, on strings. -/
def splitFields (sep : Char) (s : String) : List String :=
  (splitOnChar sep s.data).map (fun cs => String.mk cs)

/-- One octet of an IPv4 literal, as accepted by Rust's
`Ipv4Addr::from_str`: one to three decimal digits, no leading zero
(except "0" itself), value at most 255. -/
def parseOctet (s : String) : Option Nat :=
  let cs := s.data
  if cs = [] then none
  else if ¬ cs.all Char.isDigit then none
  else if 3 < cs.length then none
  else if 1 < cs.length ∧ cs.head? = some '0' then none
  else
    let n := cs.foldl (fun acc c => acc * 10 + (c.toNat - 48)) 0
    if n ≤ 255 then some n else none

/-- Rust's `Ipv4Addr::from_str`: four dot-separated octets. -/
def ipv4FromStr (s : String) : Option (Nat × Nat × Nat × Nat) :=
  match splitFields '.' s with
  | [a, b, c, d] =>
      match parseOctet a, parseOctet b, parseOctet c, parseOctet d with
      | some a, some b, some c, some d => some (a, b, c, d)
      | _, _, _, _ => none
  | _ => none

/-- The parsed argument triple (struct `Arg` of main.rs). -/
structure Arg where
  destination : Nat × Nat × Nat × Nat
  requests : Nat
  interval : Nat
deriving DecidableEq

def usageMessage : String :=
  "Usage of ICMP Ping requires an argument consisting of a comma-delimited list of IP address, number of requests, and ping interval"

/-- `parse_arg` (main.rs lines 82-95): split on commas, keep the first
three fields (`take(3)`), require all three to be present, then parse
address, request count and interval in that order. -/
def parse_arg (arg : String) : Except Error Arg :=
  match (splitFields ',' arg).take 3 with
  | [destination, requests, interval] =>
      match ipv4FromStr destination with
      | none => Except.error Error.AddressParsing
      | some d =>
          match RequestsToSend.tryFrom requests with
          | Except.error e => Except.error e
          | Except.ok r =>
              match TransmissionInterval.tryFrom interval with
              | Except.error e => Except.error e
              | Except.ok i => Except.ok { destination := d, requests := r, interval := i }
  | _ => Except.error (Error.Uncategorized usageMessage)

example : parse_arg ("10.0.0.1,5,100") = Except.ok { destination := (10, 0, 0, 1), requests := 5, interval := 100 } := by rfl

example : (parse_arg ("1.2.3.4,5,100,junk")).isOk = true := by rfl

example : parse_arg ("1.2.3.4,5") = Except.error (Error.Uncategorized usageMessage) := by rfl

example : RequestsToSend.tryFrom ("0") = Except.error (Error.Uncategorized zeroRequestsMessage) := by rfl

example : RequestsToSend.tryFrom ("70000") = Except.error Error.NumberParsing := by rfl

example : (splitFields ',' ("")).length = 1 := by rfl

example : splitFields ',' ("a,b") = ["a", "b"] := by rfl

/-! ## The echo session (the `try_fold` loop of `main`, lines 103-144) -/

/-- A socket address as seen by `rcv_from`: either an IPv4 address (the
case `as_socket_ipv4` renders) or some other shape. -/
inductive SockAddr where
  | v4 (a b c d : Nat)
  | v6
deriving DecidableEq

/-- The ICMPv4 message kinds of the `icmp_socket` dependency that the
program distinguishes: echo requests (built by `with_echo_request`),
echo replies (the only kind the receive pattern accepts), and all other
ICMP message kinds collapsed into `Other` with a numeric tag. -/
inductive Icmpv4Message where
  | Echo (identifier sequence : Nat) (payload : List Nat)
  | EchoReply (identifier sequence : Nat) (payload : List Nat)
  | Other (tag : Nat)
deriving DecidableEq

/-- An ICMPv4 packet: type, code and checksum bytes plus the message. -/
structure Icmpv4Packet where
  typ : Nat
  code : Nat
  checksum : Nat
  message : Icmpv4Message
deriving DecidableEq

/-- One result of a blocking `rcv_from` call: the socket-timeout error
(the expected miss), any other I/O error, or an inbound packet with its
source address. -/
inductive RecvResult where
  | timeoutErr
  | ioErr
  | ok (packet : Icmpv4Packet) (source : SockAddr)
deriving DecidableEq

/-- The environment of one loop iteration: whether the (discarded)
`send_to` call succeeds, the successive results `rcv_from` would
return during this iteration's wait window (past the end of the list
the socket only times out), and the wall-clock microseconds that
`Instant::now() - send_time` measures at receipt. -/
structure IterEnv where
  sendOk : Bool
  inbound : List RecvResult
  elapsedMicros : Nat
deriving DecidableEq

/-- An observable action of the session: a pacing sleep of `ms`
milliseconds, the transmission attempt of one echo request (recording
the identifier, sequence, payload and the discarded `send_to` result),
or one `println!` of a reply report with its three formatted fields. -/
inductive Event where
  | sleep (ms : Nat)
  | send (identifier sequence : Nat) (payload : List Nat) (sendOk : Bool)
  | report (address : String) (sequence elapsedMicros : Nat)
deriving DecidableEq

/-- The fixed payload `"test packet".as_bytes().to_vec()` (byte values
of the ASCII literal). -/
def testPayload : List Nat := ("test packet").data.map Char.toNat

/-- `Icmpv4Packet::with_echo_request` of the `icmp_socket` dependency
(not part of this repository): builds an echo-request packet with the
given identifier, sequence and payload, failing with a packet-building
error only when the payload cannot be framed in one ICMP packet. -/
def with_echo_request (identifier sequence : Nat) (payload : List Nat) :
    Except Error Icmpv4Packet :=
  if 65535 < payload.length + 8 then Except.error Error.PacketBuilding
  else Except.ok { typ := 8, code := 0, checksum := 0, message := Icmpv4Message.Echo identifier sequence payload }

/-- The `tokio::select!` race of main.rs lines 121-138: the receive
branch polls `rcv_from` once; a result whose shape is not
`Ok((Icmpv4Packet { message: EchoReply { .. }, .. }, addr))` fails the
branch's pattern, which disables the branch for the rest of the
`select!` — the socket is not awaited again — and the 5-second sleep
branch then wins. So the outcome is a report exactly when the first
available receive result is an inbound packet whose message is an echo
reply (the `identifier` field is a wildcard in the pattern), and the
reported pair is that reply's source address and own sequence field. -/
def selectOutcome : List RecvResult → Option (SockAddr × Nat)
  | RecvResult.ok { typ := _, code := _, checksum := _, message := Icmpv4Message.EchoReply _ s _ } src :: _ =>
      some (src, s)
  | _ => none

/-- Rendering of one IPv4 address, as `Ipv4Addr`'s `Display`. -/
def ipv4ToString (a b c d : Nat) : String :=
  toString a ++ "." ++ toString b ++ "." ++ toString c ++ "." ++ toString d

/-- `address.as_socket_ipv4().map(|sock| sock.ip().clone().to_string()).unwrap_or_default()`
(main.rs line 134): the rendered IPv4 address, or the empty string when
the source socket address is not IPv4. -/
def sourceString : SockAddr → String
  | SockAddr.v4 a b c d => ipv4ToString a b c d
  | SockAddr.v6 => ""

/-- The line printed by `println!("{},{:?},{:?}", address, sequence, elapsed.as_micros())`
(main.rs line 135). -/
def reportLine (address : String) (sequence elapsedMicros : Nat) : String :=
  address ++ "," ++ toString sequence ++ "," ++ toString elapsedMicros

/-- One iteration of the `try_fold` loop (main.rs lines 110-139):
sleep for `interval` milliseconds, build the echo request with
identifier 5091, the current sequence and the fixed payload (a build
error aborts the iteration with that error), set the socket timeout,
send it — the `send_to` result is dropped by `.map(|_| ...)` — and
race the 5-second timer against one receive. Returns the events of the
iteration and the error, if any, that the iteration propagates. -/
def runIteration (interval sequence : Nat) (env : IterEnv) : List Event × Option Error :=
  match with_echo_request 5091 sequence testPayload with
  | Except.error e => ([Event.sleep interval], some e)
  | Except.ok _packet =>
      (Event.sleep interval :: Event.send 5091 sequence testPayload env.sendOk ::
        (match selectOutcome env.inbound with
         | some (src, s) => [Event.report (sourceString src) s env.elapsedMicros]
         | none => []), none)

/-- The `try_fold` over the sequence numbers: run the iterations in
order, stopping at the first iteration that propagates an error. -/
def runSessionAux (interval : Nat) (env : Nat → IterEnv) : List Nat → List Event × Option Error
  | [] => ([], none)
  | s :: rest =>
      let step := runIteration interval s (env s)
      match step.2 with
      | some e => (step.1, some e)
      | none =>
          let r := runSessionAux interval env rest
          (step.1 ++ r.1, r.2)

/-- The whole echo session: `iter(0..requests).map(Ok).try_fold(...)`
(main.rs lines 108-140), as a function of the per-iteration
environment. The first component is the trace of observable events,
the second the session's error, if any. -/
def runSession (requests interval : Nat) (env : Nat → IterEnv) : List Event × Option Error :=
  runSessionAux interval env (List.range requests)

/-- Rust's `Termination` for the `Result` returned by `main`: exit
status 0 on `Ok`, 1 on `Err`. -/
def exitCode (r : List Event × Option Error) : Nat :=
  match r.2 with
  | none => 0
  | some _ => 1

/-- The echo requests transmitted during a trace, in order: for every
send event, its (identifier, sequence, payload). -/
def sentRequests (events : List Event) : List (Nat × Nat × List Nat) :=
  events.filterMap fun e =>
    match e with
    | Event.send id seq payload _ => some (id, seq, payload)
    | _ => none

/-- The sequence-number fields of the transmitted requests, in order. -/
def sentSequences (events : List Event) : List Nat :=
  (sentRequests events).map (fun r => r.2.1)

/-- The sequence-number fields of the reported lines, in order. -/
def reportedSequences (events : List Event) : List Nat :=
  events.filterMap fun e =>
    match e with
    | Event.report _ s _ => some s
    | _ => none

/-- The lines written to standard output, in order. -/
def outputLines (events : List Event) : List String :=
  events.filterMap fun e =>
    match e with
    | Event.report a s el => some (reportLine a s el)
    | _ => none

/-- Modelled from the spec: the wait window as §4.2 describes it — the
socket is awaited again after every non-matching inbound packet
(including an echo reply whose identifier is not this session's), until
a matching echo reply arrives or the window times out. Used only to
contrast the specified waiting discipline with `selectOutcome`. -/
def specAwaitOutcome (sessionId : Nat) : List RecvResult → Option (SockAddr × Nat)
  | [] => none
  | RecvResult.ok { typ := _, code := _, checksum := _, message := Icmpv4Message.EchoReply id s _ } src :: rest =>
      if id = sessionId then some (src, s) else specAwaitOutcome sessionId rest
  | _ :: rest => specAwaitOutcome sessionId rest

example : testPayload.length = 11 := by rfl

example :
    runIteration 100 0 { sendOk := true, inbound := [], elapsedMicros := 0 } =
      ([Event.sleep 100, Event.send 5091 0 testPayload true], none) := by rfl

example :
    runIteration 100 3 { sendOk := false, inbound := [RecvResult.ok { typ := 0, code := 0, checksum := 0, message := Icmpv4Message.EchoReply 9999 7 [] } SockAddr.v6], elapsedMicros := 55 } =
      ([Event.sleep 100, Event.send 5091 3 testPayload false, Event.report ("") 7 55], none) := by rfl

/-! ## Basic lemmas about the session loop -/

/-- With the fixed 11-byte payload, packet building always succeeds, so
an iteration never propagates an error and its events are the sleep,
the send, and the report determined by the first receive result. -/
lemma runIteration_ok (interval seq : Nat) (env : IterEnv) :
    runIteration interval seq env =
      (Event.sleep interval :: Event.send 5091 seq testPayload env.sendOk ::
        (match selectOutcome env.inbound with
         | some (src, s) => [Event.report (sourceString src) s env.elapsedMicros]
         | none => []), none) := rfl

lemma runSessionAux_cons (interval : Nat) (env : Nat → IterEnv) (s : Nat) (rest : List Nat) :
    runSessionAux interval env (s :: rest) =
      ((runIteration interval s (env s)).1 ++ (runSessionAux interval env rest).1,
        (runSessionAux interval env rest).2) := rfl

lemma runSessionAux_snd (interval : Nat) (env : Nat → IterEnv) :
    ∀ seqs : List Nat, (runSessionAux interval env seqs).2 = none := by
  intro seqs
  induction seqs with
  | nil => rfl
  | cons s rest ih => rw [runSessionAux_cons]; exact ih

lemma sentRequests_append (a b : List Event) :
    sentRequests (a ++ b) = sentRequests a ++ sentRequests b := by
  simp [sentRequests]

lemma reportedSequences_append (a b : List Event) :
    reportedSequences (a ++ b) = reportedSequences a ++ reportedSequences b := by
  simp [reportedSequences]

lemma outputLines_append (a b : List Event) :
    outputLines (a ++ b) = outputLines a ++ outputLines b := by
  simp [outputLines]

lemma sentRequests_iteration (interval s : Nat) (env : IterEnv) :
    sentRequests (runIteration interval s (env)).1 = [(5091, s, testPayload)] := by
  rw [runIteration_ok]
  cases h : selectOutcome env.inbound with
  | none => rfl
  | some v => obtain ⟨src, sq⟩ := v; rfl

lemma reportedSequences_iteration (interval s : Nat) (env : IterEnv) :
    reportedSequences (runIteration interval s (env)).1 =
      (match selectOutcome env.inbound with
       | some (_, sq) => [sq]
       | none => []) := by
  rw [runIteration_ok]
  cases h : selectOutcome env.inbound with
  | none => rfl
  | some v => obtain ⟨src, sq⟩ := v; rfl

lemma outputLines_iteration (interval s : Nat) (env : IterEnv) :
    outputLines (runIteration interval s (env)).1 =
      (match selectOutcome env.inbound with
       | some (src, sq) => [reportLine (sourceString src) sq env.elapsedMicros]
       | none => []) := by
  rw [runIteration_ok]
  cases h : selectOutcome env.inbound with
  | none => rfl
  | some v => obtain ⟨src, sq⟩ := v; rfl

lemma sentRequests_session (interval : Nat) (env : Nat → IterEnv) :
    ∀ seqs : List Nat,
      sentRequests (runSessionAux interval env seqs).1 =
        seqs.map (fun s => (5091, s, testPayload)) := by
  intro seqs
  induction seqs with
  | nil => rfl
  | cons s rest ih =>
      rw [runSessionAux_cons]
      show sentRequests ((runIteration interval s (env s)).1 ++ (runSessionAux interval env rest).1) = _
      rw [sentRequests_append, sentRequests_iteration, ih]
      rfl

lemma selectOutcome_of_head (inbound : List RecvResult) (t c ck id s : Nat)
    (p : List Nat) (src : SockAddr)
    (h : inbound.head? = some (RecvResult.ok { typ := t, code := c, checksum := ck, message := Icmpv4Message.EchoReply id s p } src)) :
    selectOutcome inbound = some (src, s) := by
  cases inbound with
  | nil => simp at h
  | cons x rest =>
      simp at h
      rw [h]
      rfl

lemma reportedSequences_session_of_match (interval : Nat) (env : Nat → IterEnv) :
    ∀ seqs : List Nat,
      (∀ s ∈ seqs, ∃ src, selectOutcome (env s).inbound = some (src, s)) →
      reportedSequences (runSessionAux interval env seqs).1 = seqs := by
  intro seqs
  induction seqs with
  | nil => intro _; rfl
  | cons s rest ih =>
      intro h
      obtain ⟨src, hs⟩ := h s (by simp)
      rw [runSessionAux_cons]
      show reportedSequences ((runIteration interval s (env s)).1 ++ (runSessionAux interval env rest).1) = _
      rw [reportedSequences_append, reportedSequences_iteration, hs,
        ih (fun x hx => h x (by simp [hx]))]
      rfl

lemma reportedSequences_session_length (interval : Nat) (env : Nat → IterEnv) :
    ∀ seqs : List Nat,
      (reportedSequences (runSessionAux interval env seqs).1).length ≤ seqs.length := by
  intro seqs
  induction seqs with
  | nil => simp [runSessionAux, reportedSequences]
  | cons s rest ih =>
      rw [runSessionAux_cons]
      show (reportedSequences ((runIteration interval s (env s)).1 ++ (runSessionAux interval env rest).1)).length ≤ _
      rw [reportedSequences_append, reportedSequences_iteration]
      cases h : selectOutcome (env s).inbound with
      | none => simpa using Nat.le_succ_of_le ih
      | some v =>
          obtain ⟨src, sq⟩ := v
          simpa using Nat.succ_le_succ ih

lemma outputLines_session_of_none (interval : Nat) (env : Nat → IterEnv) :
    ∀ seqs : List Nat,
      (∀ s ∈ seqs, selectOutcome (env s).inbound = none) →
      outputLines (runSessionAux interval env seqs).1 = [] := by
  intro seqs
  induction seqs with
  | nil => intro _; rfl
  | cons s rest ih =>
      intro h
      rw [runSessionAux_cons]
      show outputLines ((runIteration interval s (env s)).1 ++ (runSessionAux interval env rest).1) = _
      rw [outputLines_append, outputLines_iteration, h s (by simp),
        ih (fun x hx => h x (by simp [hx]))]
      rfl

lemma outputLines_length_eq_reportedSequences_length (events : List Event) :
    (outputLines events).length = (reportedSequences events).length := by
  induction events with
  | nil => rfl
  | cons e rest ih =>
      cases e with
      | sleep ms => simpa [outputLines, reportedSequences] using ih
      | send id seq p ok => simpa [outputLines, reportedSequences] using ih
      | report a s el => simpa [outputLines, reportedSequences] using ih

lemma runSession_def (requests interval : Nat) (env : Nat → IterEnv) :
    runSession requests interval env = runSessionAux interval env (List.range requests) := rfl

lemma exitCode_eq_zero (r : List Event × Option Error) (h : r.2 = none) : exitCode r = 0 := by
  unfold exitCode
  rw [h]

lemma sentSequences_session (requests interval : Nat) (env : Nat → IterEnv) :
    sentSequences (runSession requests interval env).1 = List.range requests := by
  rw [runSession_def]
  unfold sentSequences
  rw [sentRequests_session, List.map_map]
  exact List.map_id _

/-! ## Claims -/

/-- An environment in which every `send_to` fails and every `rcv_from`
returns a non-timeout I/O error. -/
def envAllIoErrors : Nat → IterEnv := fun _ =>
  { sendOk := false, inbound := [RecvResult.ioErr], elapsedMicros := 0 }

/-- C1 (counterexample): with `send_to` failing and `rcv_from` returning
a non-timeout I/O error at every iteration, a session of 2 requests
still performs both iterations (both sequence numbers are sent),
propagates no error, and the process exits with status 0 — the claimed
immediate fatal abort does not happen. -/
theorem C1_counterexample :
    (runSession 2 5 envAllIoErrors).2 = none ∧
    sentSequences (runSession 2 5 envAllIoErrors).1 = [0, 1] ∧
    exitCode (runSession 2 5 envAllIoErrors) = 0 := ⟨rfl, rfl, rfl⟩

/-- C1 (amended): an I/O failure on send or receive never aborts the
session: the `send_to` result is discarded by `.map(|_| ...)`, and a
`rcv_from` error merely fails the `select!` branch pattern, ending the
iteration as a miss. For every environment — failures included — the
session propagates no error, exits with status 0, and still sends all
`requests` sequence numbers in order; the only fatal session path is
packet building, which cannot fire for the fixed 11-byte payload. -/
theorem C1_io_failures_never_abort (requests interval : Nat) (env : Nat → IterEnv) :
    (runSession requests interval env).2 = none ∧
    exitCode (runSession requests interval env) = 0 ∧
    sentSequences (runSession requests interval env).1 = List.range requests := by
  refine ⟨runSessionAux_snd interval env (List.range requests), ?_, sentSequences_session requests interval env⟩
  exact exitCode_eq_zero _ (runSessionAux_snd interval env (List.range requests))

/-- An environment whose only inbound packet is an echo reply carrying a
foreign identifier (9999, not this session's 5091). -/
def envForeignIdReply : Nat → IterEnv := fun _ =>
  { sendOk := true,
    inbound := [RecvResult.ok { typ := 0, code := 0, checksum := 0, message := Icmpv4Message.EchoReply 9999 0 [] } (SockAddr.v4 10 0 0 1)],
    elapsedMicros := 250 }

/-- An environment whose window holds a non-reply ICMP packet first and
a correctly matching echo reply second. -/
def envReplyAfterNoise : Nat → IterEnv := fun _ =>
  { sendOk := true,
    inbound := [RecvResult.ok { typ := 3, code := 0, checksum := 0, message := Icmpv4Message.Other 3 } (SockAddr.v4 10 0 0 1),
                RecvResult.ok { typ := 0, code := 0, checksum := 0, message := Icmpv4Message.EchoReply 5091 0 testPayload } (SockAddr.v4 10 0 0 1)],
    elapsedMicros := 250 }

/-- C2 (counterexample): two failures of the claim. First, an echo reply
carrying a different identifier is not discarded: the receive pattern
wildcards the identifier, so the foreign reply is reported. Second, the
socket is not awaited again after a non-matching packet: when a
non-reply packet precedes a perfectly matching reply in the same
window, the matching reply is never received and the iteration misses,
even though the spec-modelled wait (`specAwaitOutcome`) would have
skipped the noise and returned the match. -/
theorem C2_counterexample :
    reportedSequences (runSession 1 5 envForeignIdReply).1 = [0] ∧
    specAwaitOutcome 5091 (envForeignIdReply 0).inbound = none ∧
    reportedSequences (runSession 1 5 envReplyAfterNoise).1 = [] ∧
    specAwaitOutcome 5091 (envReplyAfterNoise 0).inbound = some (SockAddr.v4 10 0 0 1, 0) :=
  ⟨rfl, rfl, rfl, rfl⟩

/-- C2 (amended): the wait window consumes exactly the first receive
result. The outcome ignores everything after the first result; a first
result that is structurally an echo reply is reported whatever its
identifier; a first result that is a non-reply packet, a timeout or any
receive error yields a miss (no line printed), the iteration still
terminates, and the session continues without error. -/
theorem C2_single_receive_per_window (x : RecvResult) (rest rest2 : List RecvResult)
    (t c ck id s tag iv sq el : Nat) (p : List Nat) (src : SockAddr) (sOk : Bool) :
    selectOutcome (x :: rest) = selectOutcome (x :: rest2) ∧
    selectOutcome (RecvResult.ok { typ := t, code := c, checksum := ck, message := Icmpv4Message.EchoReply id s p } src :: rest) = some (src, s) ∧
    selectOutcome (RecvResult.ok { typ := t, code := c, checksum := ck, message := Icmpv4Message.Other tag } src :: rest) = none ∧
    selectOutcome (RecvResult.timeoutErr :: rest) = none ∧
    selectOutcome (RecvResult.ioErr :: rest) = none ∧
    selectOutcome [] = none ∧
    outputLines (runIteration iv sq { sendOk := sOk, inbound := RecvResult.ok { typ := t, code := c, checksum := ck, message := Icmpv4Message.Other tag } src :: rest, elapsedMicros := el }).1 = [] ∧
    (runIteration iv sq { sendOk := sOk, inbound := RecvResult.ioErr :: rest, elapsedMicros := el }).2 = none := by
  refine ⟨?_, rfl, rfl, rfl, rfl, rfl, ?_, rfl⟩
  · cases x with
    | timeoutErr => rfl
    | ioErr => rfl
    | ok packet src2 =>
        obtain ⟨t2, c2, ck2, msg⟩ := packet
        cases msg with
        | Echo i2 s2 p2 => rfl
        | EchoReply i2 s2 p2 => rfl
        | Other tg => rfl
  · rw [outputLines_iteration]
    exact rfl

/-- C4: in every session and every environment, the echo requests
transmitted are exactly one per sequence number 0..requests-1, in
increasing order, each carrying the fixed identifier 5091 and the fixed
payload bytes of "test packet". -/
theorem C4_sent_requests (requests interval : Nat) (env : Nat → IterEnv) :
    sentRequests (runSession requests interval env).1 =
      (List.range requests).map (fun s => (5091, s, testPayload)) ∧
    sentSequences (runSession requests interval env).1 = List.range requests := by
  refine ⟨?_, sentSequences_session requests interval env⟩
  rw [runSession_def]
  exact sentRequests_session interval env (List.range requests)

/-- An environment in which no packet ever arrives: every `rcv_from`
only times out. -/
def envSilent : Nat → IterEnv := fun _ =>
  { sendOk := true, inbound := [], elapsedMicros := 0 }

/-- C7: when no reply ever arrives within any wait window, the session
still performs all `requests` iterations (all sequence numbers are
sent), prints nothing, and the process exits with status zero —
per-iteration receive timeouts are not errors. -/
theorem C7_no_replies_clean_exit (requests interval : Nat) (env : Nat → IterEnv)
    (h : ∀ i, (env i).inbound = []) :
    outputLines (runSession requests interval env).1 = [] ∧
    sentSequences (runSession requests interval env).1 = List.range requests ∧
    exitCode (runSession requests interval env) = 0 := by
  refine ⟨?_, sentSequences_session requests interval env,
    exitCode_eq_zero _ (runSessionAux_snd interval env (List.range requests))⟩
  rw [runSession_def]
  exact outputLines_session_of_none interval env (List.range requests)
    (fun s _ => by rw [h s]; rfl)

/-- C7 (witness): a silent destination with 3 requests. -/
theorem C7_witness :
    outputLines (runSession 3 100 envSilent).1 = [] ∧
    sentSequences (runSession 3 100 envSilent).1 = List.range 3 ∧
    exitCode (runSession 3 100 envSilent) = 0 :=
  C7_no_replies_clean_exit 3 100 envSilent (fun _ => rfl)

/-- C9: every iteration's observable behaviour starts with the pacing
sleep of exactly `interval` milliseconds followed by the send of that
iteration's request, and the very first event of the whole session is
already the pacing sleep (the delay applies before the first send
too). -/
theorem C9_pacing_before_every_send (requests interval : Nat) (env : Nat → IterEnv) (seq : Nat) :
    (runIteration interval seq (env seq)).1.take 2 =
      [Event.sleep interval, Event.send 5091 seq testPayload (env seq).sendOk] ∧
    (1 ≤ requests → (runSession requests interval env).1.head? = some (Event.sleep interval)) := by
  constructor
  · rw [runIteration_ok]
    exact rfl
  · intro h
    obtain ⟨n, rfl⟩ : ∃ n, requests = n + 1 := ⟨requests - 1, by omega⟩
    rw [runSession_def, List.range_succ_eq_map, runSessionAux_cons]
    show ((runIteration interval 0 (env 0)).1 ++ _).head? = _
    rw [runIteration_ok]
    rfl

/-- C9 (witness): at 3 requests of interval 100, iteration 0 of the
silent environment opens with the sleep and the send, and the session's
first event is the sleep. -/
theorem C9_witness :
    (runIteration 100 0 (envSilent 0)).1.take 2 =
      [Event.sleep 100, Event.send 5091 0 testPayload (envSilent 0).sendOk] ∧
    (runSession 3 100 envSilent).1.head? = some (Event.sleep 100) :=
  ⟨(C9_pacing_before_every_send 3 100 envSilent 0).1,
   (C9_pacing_before_every_send 3 100 envSilent 0).2 (by decide)⟩

/-- C10: whatever the inbound traffic, each iteration resolves its race
exactly once and prints at most one line, so a session of `requests`
iterations prints at most `requests` lines. -/
theorem C10_at_most_one_line_per_iteration (requests interval : Nat) (env : Nat → IterEnv) :
    (outputLines (runSession requests interval env).1).length ≤ requests := by
  rw [outputLines_length_eq_reportedSequences_length, runSession_def]
  have h := reportedSequences_session_length interval env (List.range requests)
  simpa using h

/-- C3: if every iteration's wait window opens with an echo reply
carrying the session identifier 5091 and the sequence number just sent,
a session of `requests` in [1,10] prints exactly `requests` lines whose
sequence fields are 0..requests-1, each exactly once, in send order. -/
theorem C3_all_replies_reported_in_order (requests interval : Nat) (env : Nat → IterEnv)
    (_h1 : 1 ≤ requests) (_h2 : requests ≤ 10)
    (henv : ∀ i, i < requests → ∃ t c ck p src,
        (env i).inbound.head? =
          some (RecvResult.ok { typ := t, code := c, checksum := ck, message := Icmpv4Message.EchoReply 5091 i p } src)) :
    (outputLines (runSession requests interval env).1).length = requests ∧
    reportedSequences (runSession requests interval env).1 = List.range requests := by
  have hsel : ∀ s ∈ List.range requests, ∃ src, selectOutcome (env s).inbound = some (src, s) := by
    intro s hs
    obtain ⟨t, c, ck, p, src, hh⟩ := henv s (List.mem_range.mp hs)
    exact ⟨src, selectOutcome_of_head _ t c ck 5091 s p src hh⟩
  have hrep := reportedSequences_session_of_match interval env (List.range requests) hsel
  refine ⟨?_, by rw [runSession_def]; exact hrep⟩
  rw [outputLines_length_eq_reportedSequences_length, runSession_def, hrep, List.length_range]

/-- An environment that answers iteration `i` immediately with a
correctly matching echo reply from 127.0.0.1. -/
def envPerfect : Nat → IterEnv := fun i =>
  { sendOk := true,
    inbound := [RecvResult.ok { typ := 0, code := 0, checksum := 0, message := Icmpv4Message.EchoReply 5091 i testPayload } (SockAddr.v4 127 0 0 1)],
    elapsedMicros := 42 }

/-- C3 (witness): the perfectly replying transport at 3 requests. -/
theorem C3_witness :
    (outputLines (runSession 3 100 envPerfect).1).length = 3 ∧
    reportedSequences (runSession 3 100 envPerfect).1 = List.range 3 :=
  C3_all_replies_reported_in_order 3 100 envPerfect (by decide) (by decide)
    (fun i _ => ⟨0, 0, 0, testPayload, SockAddr.v4 127 0 0 1, rfl⟩)

/-- C8: whenever an iteration reports a reply, the printed line is
`<source>,<sequence>,<elapsed_micros>` where the sequence field is the
reply's own sequence `s` exactly as received — the just-sent sequence
`seq` plays no role — and the source field is the rendered IPv4 address
or the empty string when the source socket address is not IPv4. -/
theorem C8_reported_line_shape (interval seq : Nat) (env : IterEnv)
    (t c ck id s : Nat) (p : List Nat) (src : SockAddr) (rest : List RecvResult)
    (h : env.inbound = RecvResult.ok { typ := t, code := c, checksum := ck, message := Icmpv4Message.EchoReply id s p } src :: rest) :
    outputLines (runIteration interval seq env).1 =
      [reportLine (sourceString src) s env.elapsedMicros] ∧
    sourceString SockAddr.v6 = "" ∧
    reportLine ("") 7 33 = ",7,33" := by
  refine ⟨?_, rfl, rfl⟩
  rw [outputLines_iteration, h]
  exact rfl

/-- An iteration environment delivering a reply whose sequence field 7
differs from the sequence just sent, from a non-IPv4 source. -/
def envStaleV6Reply : IterEnv :=
  { sendOk := true,
    inbound := [RecvResult.ok { typ := 0, code := 0, checksum := 0, message := Icmpv4Message.EchoReply 5091 7 [] } SockAddr.v6],
    elapsedMicros := 33 }

/-- C8 (witness): sending sequence 0 but receiving a reply with
sequence field 7 from a non-IPv4 source prints the line ",7,33". -/
theorem C8_witness :
    outputLines (runIteration 100 0 envStaleV6Reply).1 =
      [reportLine (sourceString SockAddr.v6) 7 envStaleV6Reply.elapsedMicros] ∧
    sourceString SockAddr.v6 = "" ∧
    reportLine ("") 7 33 = ",7,33" :=
  C8_reported_line_shape 100 0 envStaleV6Reply 0 0 0 5091 7 [] SockAddr.v6 [] rfl

lemma parse_arg_short (s : String) (h : (splitFields ',' s).length < 3) :
    parse_arg s = Except.error (Error.Uncategorized usageMessage) := by
  rcases hl : splitFields ',' s with _ | ⟨a, _ | ⟨b, _ | ⟨c, rest⟩⟩⟩
  · unfold parse_arg; rw [hl]; exact rfl
  · unfold parse_arg; rw [hl]; exact rfl
  · unfold parse_arg; rw [hl]; exact rfl
  · rw [hl] at h; simp at h; omega

/-- C5 (counterexample): an argument string with four comma-separated
fields is accepted — `split(",").take(3)` silently drops the fourth
field — so success is not restricted to exactly three fields. -/
theorem C5_counterexample :
    (parse_arg ("1.2.3.4,5,100,junk")).isOk = true ∧
    (splitFields ',' ("1.2.3.4,5,100,junk")).length = 4 := ⟨rfl, rfl⟩

/-- C5 (amended): `parse_arg` succeeds only on strings splitting into at
least three comma-separated fields, the fields past the third being
ignored; any string with fewer than three fields is rejected with the
usage error regardless of the fields' contents. -/
theorem C5_at_least_three_fields (s : String) :
    ((splitFields ',' s).length < 3 →
      parse_arg s = Except.error (Error.Uncategorized usageMessage)) ∧
    ((parse_arg s).isOk = true → 3 ≤ (splitFields ',' s).length) := by
  refine ⟨parse_arg_short s, ?_⟩
  intro h
  by_contra hlt
  push_neg at hlt
  rw [parse_arg_short s hlt] at h
  simp [Except.isOk, Except.toBool] at h

/-- C5 (witness): "1.2.3.4,5" (two fields) is rejected with the usage
error, and the accepted "10.0.0.1,5,100" has three fields. -/
theorem C5_witness :
    parse_arg ("1.2.3.4,5") = Except.error (Error.Uncategorized usageMessage) ∧
    3 ≤ (splitFields ',' ("10.0.0.1,5,100")).length :=
  ⟨(C5_at_least_three_fields ("1.2.3.4,5")).1 (by decide),
   (C5_at_least_three_fields ("10.0.0.1,5,100")).2 (by rfl)⟩

lemma requests_tryFrom_ok (text : String) (x : Nat) :
    RequestsToSend.tryFrom text = Except.ok x ↔
      decimalValue text = some x ∧ 1 ≤ x ∧ x ≤ 10 := by
  cases hd : decimalValue text with
  | none => simp [RequestsToSend.tryFrom, u16FromStr, hd]
  | some n =>
      by_cases h1 : n ≤ 65535
      · by_cases h2 : 10 < n
        · simp only [RequestsToSend.tryFrom, u16FromStr, hd, if_pos h1, if_pos h2]
          simp
          omega
        · by_cases h3 : n = 0
          · simp only [RequestsToSend.tryFrom, u16FromStr, hd, if_pos h1, if_neg h2, if_pos h3]
            simp
            omega
          · simp only [RequestsToSend.tryFrom, u16FromStr, hd, if_pos h1, if_neg h2, if_neg h3]
            simp
            omega
      · simp only [RequestsToSend.tryFrom, u16FromStr, hd, if_neg h1]
        simp
        omega

lemma interval_tryFrom_ok (text : String) (x : Nat) :
    TransmissionInterval.tryFrom text = Except.ok x ↔
      decimalValue text = some x ∧ 1 ≤ x ∧ x ≤ 1000 := by
  cases hd : decimalValue text with
  | none => simp [TransmissionInterval.tryFrom, u16FromStr, hd]
  | some n =>
      by_cases h1 : n ≤ 65535
      · by_cases h2 : 1000 < n
        · simp only [TransmissionInterval.tryFrom, u16FromStr, hd, if_pos h1, if_pos h2]
          simp
          omega
        · by_cases h3 : n = 0
          · simp only [TransmissionInterval.tryFrom, u16FromStr, hd, if_pos h1, if_neg h2, if_pos h3]
            simp
            omega
          · simp only [TransmissionInterval.tryFrom, u16FromStr, hd, if_pos h1, if_neg h2, if_neg h3]
            simp
            omega
      · simp only [TransmissionInterval.tryFrom, u16FromStr, hd, if_neg h1]
        simp
        omega

lemma tryFrom_zero (text : String) (hd : decimalValue text = some 0) :
    RequestsToSend.tryFrom text = Except.error (Error.Uncategorized zeroRequestsMessage) ∧
    TransmissionInterval.tryFrom text = Except.error (Error.Uncategorized zeroIntervalMessage) := by
  constructor
  · simp only [RequestsToSend.tryFrom, u16FromStr, hd]
    rfl
  · simp only [TransmissionInterval.tryFrom, u16FromStr, hd]
    rfl

lemma requests_tryFrom_large (text : String) (v : Nat) (hd : decimalValue text = some v)
    (h10 : 10 < v) (h65 : v ≤ 65535) :
    RequestsToSend.tryFrom text = Except.error (Error.Uncategorized tooManyRequestsMessage) := by
  simp only [RequestsToSend.tryFrom, u16FromStr, hd, if_pos h65, if_pos h10]

lemma interval_tryFrom_large (text : String) (v : Nat) (hd : decimalValue text = some v)
    (h1000 : 1000 < v) (h65 : v ≤ 65535) :
    TransmissionInterval.tryFrom text = Except.error (Error.Uncategorized intervalTooLargeMessage) := by
  simp only [TransmissionInterval.tryFrom, u16FromStr, hd, if_pos h65, if_pos h1000]

/-- C6: the count field is accepted exactly when it parses as a
non-negative decimal integer whose value lies in [1,10], and the
interval field exactly when its value lies in [1,1000]; the value 0 and
the values above the bound (up to the u16 parse limit) are rejected
with the program's descriptive messages. -/
theorem C6_count_and_interval_ranges (text : String) (x : Nat) :
    (RequestsToSend.tryFrom text = Except.ok x ↔
      decimalValue text = some x ∧ 1 ≤ x ∧ x ≤ 10) ∧
    (TransmissionInterval.tryFrom text = Except.ok x ↔
      decimalValue text = some x ∧ 1 ≤ x ∧ x ≤ 1000) ∧
    (decimalValue text = some 0 →
      RequestsToSend.tryFrom text = Except.error (Error.Uncategorized zeroRequestsMessage) ∧
      TransmissionInterval.tryFrom text = Except.error (Error.Uncategorized zeroIntervalMessage)) ∧
    (∀ v, decimalValue text = some v → 10 < v → v ≤ 65535 →
      RequestsToSend.tryFrom text = Except.error (Error.Uncategorized tooManyRequestsMessage)) ∧
    (∀ v, decimalValue text = some v → 1000 < v → v ≤ 65535 →
      TransmissionInterval.tryFrom text = Except.error (Error.Uncategorized intervalTooLargeMessage)) :=
  ⟨requests_tryFrom_ok text x, interval_tryFrom_ok text x, tryFrom_zero text,
   fun v hd h10 h65 => requests_tryFrom_large text v hd h10 h65,
   fun v hd h1000 h65 => interval_tryFrom_large text v hd h1000 h65⟩

/-- C6 (witness): "10" is accepted as a count, "1000" as an interval,
"0" is rejected by both with the zero messages, "11" exceeds the count
bound and "1001" the interval bound. -/
theorem C6_witness :
    RequestsToSend.tryFrom ("10") = Except.ok 10 ∧
    TransmissionInterval.tryFrom ("1000") = Except.ok 1000 ∧
    RequestsToSend.tryFrom ("0") = Except.error (Error.Uncategorized zeroRequestsMessage) ∧
    RequestsToSend.tryFrom ("11") = Except.error (Error.Uncategorized tooManyRequestsMessage) ∧
    TransmissionInterval.tryFrom ("1001") = Except.error (Error.Uncategorized intervalTooLargeMessage) :=
  ⟨(C6_count_and_interval_ranges ("10") 10).1.mpr ⟨rfl, by decide, by decide⟩,
   (C6_count_and_interval_ranges ("1000") 1000).2.1.mpr ⟨rfl, by decide, by decide⟩,
   ((C6_count_and_interval_ranges ("0") 0).2.2.1 rfl).1,
   (C6_count_and_interval_ranges ("11") 0).2.2.2.1 11 rfl (by decide) (by decide),
   (C6_count_and_interval_ranges ("1001") 0).2.2.2.2 1001 rfl (by decide) (by decide)⟩
